import Mathlib

/-!
Verification of the ChatAzureFoundry adapter
(browser_use/llm/azure_foundry/chat.py).

The adapter is embedded shallowly: construction (`ChatAzureFoundry.make`)
models the dataclass constructor followed by `__post_init__`; `get_client`
models the lazy memoized transport client; `ainvoke` models message
translation, the single `client.complete` call and result extraction.
Python `Optional[str]` values are `Option String`; Python truthiness of
such a value (None and the empty string are falsy) is `falsyStr`; the
process environment is an explicit `Env` record read where the source
calls `os.getenv`.  The transport (`client.complete` of the vendor SDK)
is an explicit function parameter; every invocation of it is recorded in
the `calls` field of the outcome, so "no network activity" is the
statement that this list is empty.  Python floats carry no arithmetic in
this code, so `temperature` is modelled as a rational.
-/

/-- Modelled from the spec: the process environment as read by os.getenv for
AZURE_INFERENCE_ENDPOINT and AZURE_INFERENCE_CREDENTIAL.  A variable that is
set to the empty string is `some ""`; an unset variable is `none`. -/
structure Env where
  azureInferenceEndpoint : Option String
  azureInferenceCredential : Option String
  deriving DecidableEq

/-- Python truth value of an Optional[str]: None and the empty string are falsy. -/
def falsyStr : Option String → Bool
  | none => true
  | some s => s = ""

/-- Python `a or b` on Optional[str] operands: `a` when truthy, else `b`. -/
def pyOr (a b : Option String) : Option String :=
  if falsyStr a then b else a

/-- Modelled from the spec: the caller-side message shape of
browser_use.llm.messages, read by the adapter through msg.role and msg.content. -/
structure BaseMessage where
  role : String
  content : String
  deriving DecidableEq

/-- The provider message classes SystemMessage / UserMessage / AssistantMessage
of azure.ai.inference.models, opaque up to their content payload. -/
inductive AzureMessage
  | SystemMessage (content : String)
  | UserMessage (content : String)
  | AssistantMessage (content : String)
  deriving DecidableEq

/-- AzureKeyCredential(key) as constructed by the adapter. -/
structure AzureKeyCredential where
  key : Option String
  deriving DecidableEq

/-- ChatCompletionsClient(endpoint=..., credential=...): the transport handle,
identified by the arguments the adapter constructs it from. -/
structure ChatCompletionsClient where
  endpoint : Option String
  credential : AzureKeyCredential
  deriving DecidableEq

/-- Modelled from the spec: ChatInvokeUsage of browser_use.llm.views, the
prompt / completion / total token counters of the normalized result. -/
structure ChatInvokeUsage where
  prompt_tokens : Nat
  completion_tokens : Nat
  total_tokens : Nat
  deriving DecidableEq

/-- Modelled from the spec: ChatInvokeCompletion of browser_use.llm.views, the
normalized result (completion text plus usage counters). -/
structure ChatInvokeCompletion where
  completion : String
  usage : ChatInvokeUsage
  deriving DecidableEq

/-- The message object inside one returned choice. -/
structure ChoiceMessage where
  content : String
  deriving DecidableEq

/-- One element of response.choices. -/
structure Choice where
  message : ChoiceMessage
  deriving DecidableEq

/-- The usage counters of the transport response. -/
structure TransportUsage where
  prompt_tokens : Nat
  completion_tokens : Nat
  total_tokens : Nat
  deriving DecidableEq

/-- The shape the adapter reads from the value returned by client.complete:
choices and usage. -/
structure TransportResponse where
  choices : List Choice
  usage : TransportUsage
  deriving DecidableEq

/-- Python exceptions relevant to this code. -/
inductive PyExc
  | valueError (msg : String)
  | typeError (msg : String)
  | indexError (msg : String)
  | other (msg : String)
  deriving DecidableEq

/-- The adapter state: the dataclass fields of ChatAzureFoundry. -/
structure ChatAzureFoundry where
  model : String
  endpoint : Option String
  api_key : Option String
  temperature : Rat
  max_tokens : Int
  _client : Option ChatCompletionsClient
  deriving DecidableEq

/-- Dataclass construction followed by __post_init__: endpoint and api_key are
resolved with Python `or` against the environment (so an explicit empty string
also falls back), then ValueError is raised when either resolved value is still
falsy.  Construction takes no transport and builds no client: `_client` stays
None, so no network activity can occur here. -/
def ChatAzureFoundry.make (model : String) (endpoint : Option String)
    (api_key : Option String) (temperature : Rat) (max_tokens : Int)
    (env : Env) : Except PyExc ChatAzureFoundry :=
  let endpointR := pyOr endpoint env.azureInferenceEndpoint
  let apiKeyR := pyOr api_key env.azureInferenceCredential
  if falsyStr endpointR || falsyStr apiKeyR then
    .error (.valueError "Azure Inference Endpoint and API Key must be provided.")
  else
    .ok { model := model, endpoint := endpointR, api_key := apiKeyR,
          temperature := temperature, max_tokens := max_tokens, _client := none }

/-- get_client: `if not self._client` is a None test (a constructed client
object is always truthy in Python), so the client is built once from
(endpoint, AzureKeyCredential(api_key)) and memoized.  Returns the client
together with the updated adapter state. -/
def ChatAzureFoundry.get_client (self : ChatAzureFoundry) :
    ChatCompletionsClient × ChatAzureFoundry :=
  match self._client with
  | some c => (c, self)
  | none =>
      let c : ChatCompletionsClient :=
        { endpoint := self.endpoint, credential := { key := self.api_key } }
      (c, { self with _client := some c })

/-- The provider property. -/
def ChatAzureFoundry.provider (_self : ChatAzureFoundry) : String :=
  "azure_foundry"

/-- One iteration of the role dispatch in ainvoke: a recognized role maps to
its provider message class; any other role appends nothing. -/
def formatMessage (m : BaseMessage) : Option AzureMessage :=
  if m.role = "system" then some (.SystemMessage m.content)
  else if m.role = "user" then some (.UserMessage m.content)
  else if m.role = "assistant" then some (.AssistantMessage m.content)
  else none

/-- The for-loop of ainvoke building formatted_messages in input order. -/
def formatMessages : List BaseMessage → List AzureMessage
  | [] => []
  | m :: rest =>
    match formatMessage m with
    | some am => am :: formatMessages rest
    | none => formatMessages rest

/-- The keyword arguments of the single client.complete call: the four named
fields plus the **kwargs bag (extra option values are opaque strings). -/
structure TransportRequest where
  messages : List AzureMessage
  model : String
  temperature : Rat
  max_tokens : Int
  kwargs : List (String × String)
  deriving DecidableEq

/-- The keywords passed explicitly at the client.complete call site. -/
def fixedKwNames : List String := ["messages", "model", "temperature", "max_tokens"]

/-- The extraction performed after the awaited call: choices[0].message.content
and the three usage counters.  A transport error has already propagated past
this point; an empty choices list raises IndexError at choices[0]. -/
def extractResult : Except PyExc TransportResponse → Except PyExc ChatInvokeCompletion
  | .error e => .error e
  | .ok response =>
    match response.choices with
    | [] => .error (.indexError "list index out of range")
    | c :: _ =>
        .ok { completion := c.message.content,
              usage := { prompt_tokens := response.usage.prompt_tokens,
                         completion_tokens := response.usage.completion_tokens,
                         total_tokens := response.usage.total_tokens } }

deriving instance DecidableEq for Except

/-- The outcome of one ainvoke call: the returned value or the propagated
exception, the adapter state afterwards, and the list of transport invocations
made (each with the client handle it went through). -/
structure AInvokeOutcome where
  result : Except PyExc ChatInvokeCompletion
  state : ChatAzureFoundry
  calls : List (ChatCompletionsClient × TransportRequest)
  deriving DecidableEq

/-- ainvoke: memoize the client, translate the messages, issue the single
client.complete call, extract content and usage.  Python raises TypeError at
the call site when a **kwargs key repeats one of the explicitly named keywords
(messages, model, temperature, max_tokens); the callee is then never entered,
so no transport invocation is recorded.  get_client only writes `_client`, so
the model / temperature / max_tokens read for the request are the original
fields.  Nothing raised by the transport is caught.  output_format is accepted
and never read. -/
def ChatAzureFoundry.ainvoke (self : ChatAzureFoundry)
    (complete : ChatCompletionsClient → TransportRequest → Except PyExc TransportResponse)
    (messages : List BaseMessage) (output_format : Option String)
    (kwargs : List (String × String)) : AInvokeOutcome :=
  let step := self.get_client
  match kwargs.find? (fun kv => fixedKwNames.contains kv.1) with
  | some kv =>
      { result := .error (.typeError
          ("complete() got multiple values for keyword argument " ++ kv.1)),
        state := step.2, calls := [] }
  | none =>
      let req : TransportRequest :=
        { messages := formatMessages messages, model := self.model,
          temperature := self.temperature, max_tokens := self.max_tokens,
          kwargs := kwargs }
      { result := extractResult (complete step.1 req),
        state := step.2, calls := [(step.1, req)] }

/-- The role-specific provider representation the spec prescribes for each
recognized role (for an unrecognized role, outside its intended domain, the
function defaults to an AssistantMessage so that it is total). -/
def specRoleRepr (m : BaseMessage) : AzureMessage :=
  if m.role = "system" then .SystemMessage m.content
  else if m.role = "user" then .UserMessage m.content
  else .AssistantMessage m.content

/-- A role the translation recognizes. -/
def recognizedRole (m : BaseMessage) : Bool :=
  m.role = "system" || m.role = "user" || m.role = "assistant"

/-- A sample environment with neither variable set. -/
def emptyEnv : Env := { azureInferenceEndpoint := none, azureInferenceCredential := none }

/-- A sample adapter state as produced by a successful construction. -/
def sampleAdapter : ChatAzureFoundry :=
  { model := "m", endpoint := some "e", api_key := some "k",
    temperature := 0, max_tokens := 1000, _client := none }

/-- The stub transport response of the spec examples. -/
def stubResponse : TransportResponse :=
  { choices := [{ message := { content := "hello" } }],
    usage := { prompt_tokens := 3, completion_tokens := 2, total_tokens := 5 } }

-- Helper lemmas (shared; not claim theorems).

/-- get_client changes no field other than `_client`. -/
theorem get_client_preserves_config (self : ChatAzureFoundry) :
    self.get_client.2.model = self.model ∧
    self.get_client.2.endpoint = self.endpoint ∧
    self.get_client.2.api_key = self.api_key ∧
    self.get_client.2.temperature = self.temperature ∧
    self.get_client.2.max_tokens = self.max_tokens := by
  unfold ChatAzureFoundry.get_client
  cases h : self._client <;> simp

/-- The translation maps a message to nothing exactly when its role is
unrecognized. -/
theorem formatMessage_none_iff (m : BaseMessage) :
    formatMessage m = none ↔ recognizedRole m = false := by
  unfold formatMessage recognizedRole
  by_cases h1 : m.role = "system" <;> by_cases h2 : m.role = "user" <;>
    by_cases h3 : m.role = "assistant" <;> simp [h1, h2, h3]

/-- On a list of recognized-role messages the translation is the elementwise
role-specific representation. -/
theorem formatMessages_eq_map (msgs : List BaseMessage)
    (h : ∀ m ∈ msgs, m.role = "system" ∨ m.role = "user" ∨ m.role = "assistant") :
    formatMessages msgs = msgs.map specRoleRepr := by
  induction msgs with
  | nil => rfl
  | cons m rest ih =>
    have hm := h m (by simp)
    have hrest := ih (fun x hx => h x (by simp [hx]))
    rcases hm with h1 | h1 | h1 <;>
      simp [formatMessages, formatMessage, specRoleRepr, h1, hrest]

/-- Claim C1: construction fails with the configuration ValueError exactly when
endpoint or credential is still falsy after falling back to the environment,
and succeeds (returning the resolved adapter state, with no client built and no
transport available to call) when both resolve. -/
theorem construction_validates_config (model : String)
    (endpoint api_key : Option String) (t : Rat) (mt : Int) (env : Env) :
    ((falsyStr (pyOr endpoint env.azureInferenceEndpoint) = true ∨
      falsyStr (pyOr api_key env.azureInferenceCredential) = true) →
      ChatAzureFoundry.make model endpoint api_key t mt env =
        .error (.valueError "Azure Inference Endpoint and API Key must be provided.")) ∧
    (falsyStr (pyOr endpoint env.azureInferenceEndpoint) = false →
      falsyStr (pyOr api_key env.azureInferenceCredential) = false →
      ChatAzureFoundry.make model endpoint api_key t mt env =
        .ok { model := model,
              endpoint := pyOr endpoint env.azureInferenceEndpoint,
              api_key := pyOr api_key env.azureInferenceCredential,
              temperature := t, max_tokens := mt, _client := none }) := by
  unfold ChatAzureFoundry.make
  constructor
  · intro h
    rcases h with h | h <;> simp [h]
  · intro h1 h2
    simp [h1, h2]

/-- Witness for C1: with nothing set in the environment, construction with no
arguments fails with the ValueError, and construction with both arguments
succeeds. -/
theorem construction_validates_config_witness :
    ChatAzureFoundry.make "m" none none 0 1000 emptyEnv =
      .error (.valueError "Azure Inference Endpoint and API Key must be provided.") ∧
    ChatAzureFoundry.make "m" (some "e") (some "k") 0 1000 emptyEnv =
      .ok sampleAdapter := by
  constructor
  · exact (construction_validates_config "m" none none 0 1000 emptyEnv).1 (Or.inl rfl)
  · exact (construction_validates_config "m" (some "e") (some "k") 0 1000 emptyEnv).2
      rfl rfl

/-- Claim C2: when every input role is system, user or assistant and no extra
option collides with a named keyword, the transport receives exactly one call
whose message sequence is the elementwise role-specific representation of the
input, in input order, content preserved verbatim. -/
theorem translated_sequence_reaches_transport (self : ChatAzureFoundry)
    (complete : ChatCompletionsClient → TransportRequest → Except PyExc TransportResponse)
    (msgs : List BaseMessage) (of : Option String) (kwargs : List (String × String))
    (hroles : ∀ m ∈ msgs, m.role = "system" ∨ m.role = "user" ∨ m.role = "assistant")
    (hkw : kwargs.find? (fun kv => fixedKwNames.contains kv.1) = none) :
    ((self.ainvoke complete msgs of kwargs).calls.map fun call => call.2.messages) =
      [msgs.map specRoleRepr] := by
  unfold ChatAzureFoundry.ainvoke
  rw [hkw]
  simp [formatMessages_eq_map msgs hroles]

/-- Witness for C2: the three-message list [system "s", user "u", assistant "a"]
yields exactly the three role-specific entries in that order. -/
theorem translated_sequence_reaches_transport_witness :
    ((sampleAdapter.ainvoke (fun _ _ => .ok stubResponse)
        [{ role := "system", content := "s" }, { role := "user", content := "u" },
         { role := "assistant", content := "a" }] none []).calls.map
      fun call => call.2.messages) =
      [[AzureMessage.SystemMessage "s", AzureMessage.UserMessage "u",
        AzureMessage.AssistantMessage "a"]] := by
  have h := translated_sequence_reaches_transport sampleAdapter
    (fun _ _ => .ok stubResponse)
    [{ role := "system", content := "s" }, { role := "user", content := "u" },
     { role := "assistant", content := "a" }] none [] (by decide) rfl
  exact h.trans (by decide)

/-- Claim C3: the translation is total (it never raises) and silently omits
every message whose role is outside the recognized set: the translation equals
the translation of the recognized sublist, and its length plus the number of
unrecognized messages is the input length. -/
theorem unrecognized_roles_omitted (msgs : List BaseMessage) :
    formatMessages msgs = formatMessages (msgs.filter recognizedRole) ∧
    (formatMessages msgs).length + (msgs.filter fun m => !recognizedRole m).length
      = msgs.length := by
  induction msgs with
  | nil => exact ⟨rfl, rfl⟩
  | cons m rest ih =>
    have h2 := ih.2
    by_cases hr : recognizedRole m = true
    · obtain ⟨am, hfmv⟩ : ∃ am, formatMessage m = some am := by
        cases hfm : formatMessage m with
        | none =>
          rw [(formatMessage_none_iff m).mp hfm] at hr
          exact absurd hr (by simp)
        | some am => exact ⟨am, rfl⟩
      constructor
      · simp [formatMessages, hfmv, List.filter_cons, hr, ih.1]
      · simp [formatMessages, hfmv, List.filter_cons, hr]
        omega
    · have hfm : formatMessage m = none :=
        (formatMessage_none_iff m).mpr (by simpa using hr)
      constructor
      · simp [formatMessages, hfm, List.filter_cons, hr, ih.1]
      · simp [formatMessages, hfm, List.filter_cons, hr]
        omega

/-- Counterexample to claim C4 as stated: an extra option that collides with a
fixed named field does not override it.  With kwargs containing the key
temperature, the call raises TypeError (Python rejects a **kwargs key that
repeats an explicit keyword of the same call before entering the callee), the
transport is never invoked, and no result is produced — even though the
transport itself would have succeeded. -/
theorem extra_option_collision_counterexample :
    (sampleAdapter.ainvoke (fun _ _ => .ok stubResponse)
        [{ role := "user", content := "u" }] none [("temperature", "0.9")]).calls = [] ∧
    (sampleAdapter.ainvoke (fun _ _ => .ok stubResponse)
        [{ role := "user", content := "u" }] none [("temperature", "0.9")]).result =
      .error (.typeError
        "complete() got multiple values for keyword argument temperature") := by
  constructor <;> rfl

/-- Claim C4 (amended): extra options whose names avoid the fixed keywords
(messages, model, temperature, max_tokens) are merged into the single transport
invocation alongside the configured model, temperature and max-token limit; a
colliding extra option instead raises a duplicate-keyword TypeError at the call
site and the transport is not invoked at all, rather than overriding the fixed
value. -/
theorem extra_options_merged (self : ChatAzureFoundry)
    (complete : ChatCompletionsClient → TransportRequest → Except PyExc TransportResponse)
    (msgs : List BaseMessage) (of : Option String) (kwargs : List (String × String))
    (h : ∀ kv ∈ kwargs, ¬ kv.1 ∈ fixedKwNames) :
    (self.ainvoke complete msgs of kwargs).calls =
      [(self.get_client.1,
        { messages := formatMessages msgs, model := self.model,
          temperature := self.temperature, max_tokens := self.max_tokens,
          kwargs := kwargs })] := by
  have hfind : kwargs.find? (fun kv => fixedKwNames.contains kv.1) = none := by
    rw [List.find?_eq_none]
    intro kv hkv
    simpa using h kv hkv
  unfold ChatAzureFoundry.ainvoke
  rw [hfind]

/-- Witness for C4 (amended): a non-colliding extra option reaches the one
transport call next to the configured fixed fields. -/
theorem extra_options_merged_witness :
    (sampleAdapter.ainvoke (fun _ _ => .ok stubResponse)
        [{ role := "user", content := "u" }] none [("top_p", "0.5")]).calls =
      [({ endpoint := some "e", credential := { key := some "k" } },
        { messages := [AzureMessage.UserMessage "u"], model := "m",
          temperature := 0, max_tokens := 1000,
          kwargs := [("top_p", "0.5")] })] := by
  have h := extra_options_merged sampleAdapter (fun _ _ => .ok stubResponse)
    [{ role := "user", content := "u" }] none [("top_p", "0.5")] (by decide)
  exact h.trans (by decide)

/-- Claim C5: when the transport returns a response whose choices list starts
with choice c, the result is Ok with completion equal to c.message.content and
usage equal to the prompt / completion / total counters of the response. -/
theorem result_extracted_from_response (self : ChatAzureFoundry)
    (r : TransportResponse) (c : Choice) (rest : List Choice)
    (msgs : List BaseMessage) (of : Option String) (kwargs : List (String × String))
    (hkw : kwargs.find? (fun kv => fixedKwNames.contains kv.1) = none)
    (hc : r.choices = c :: rest) :
    (self.ainvoke (fun _ _ => .ok r) msgs of kwargs).result =
      .ok { completion := c.message.content,
            usage := { prompt_tokens := r.usage.prompt_tokens,
                       completion_tokens := r.usage.completion_tokens,
                       total_tokens := r.usage.total_tokens } } := by
  unfold ChatAzureFoundry.ainvoke
  rw [hkw]
  simp [extractResult, hc]

/-- Witness for C5: the stub response with one choice hello and usage counters
3 / 2 / 5 yields completion hello and usage 3 / 2 / 5. -/
theorem result_extracted_from_response_witness :
    (sampleAdapter.ainvoke (fun _ _ => .ok stubResponse)
        [{ role := "user", content := "u" }] none []).result =
      .ok { completion := "hello",
            usage := { prompt_tokens := 3, completion_tokens := 2, total_tokens := 5 } } := by
  have h := result_extracted_from_response sampleAdapter stubResponse
    { message := { content := "hello" } } [] [{ role := "user", content := "u" }]
    none [] rfl rfl
  exact h.trans (by decide)

/-- Claim C6: get_client is memoizing.  A second call returns the identical
client handle and leaves the state unchanged; after the first call the handle
is stored; on a fresh state the handle is freshly constructed from
(endpoint, AzureKeyCredential(api_key)); on a state that already holds a
client, that stored client is returned and nothing is constructed (the state is
untouched). -/
theorem get_client_memoized (self : ChatAzureFoundry) :
    self.get_client.2.get_client.1 = self.get_client.1 ∧
    self.get_client.2.get_client.2 = self.get_client.2 ∧
    self.get_client.2._client = some self.get_client.1 ∧
    (self._client = none →
      self.get_client.1 =
        { endpoint := self.endpoint, credential := { key := self.api_key } }) ∧
    (∀ c, self._client = some c →
      self.get_client.1 = c ∧ self.get_client.2 = self) := by
  cases h : self._client <;>
    simp [ChatAzureFoundry.get_client, h]

/-- Witness for C6: on the sample adapter (no client yet) the first call
constructs the client from (endpoint, credential) and the second call returns
the identical handle. -/
theorem get_client_memoized_witness :
    sampleAdapter.get_client.1 =
      { endpoint := some "e", credential := { key := some "k" } } ∧
    sampleAdapter.get_client.2.get_client.1 = sampleAdapter.get_client.1 := by
  have h := get_client_memoized sampleAdapter
  exact ⟨h.2.2.2.1 rfl, h.1⟩

/-- Claim C7: whatever the transport raises on the one request made propagates
unmodified: no catch, no retry (the transport is invoked exactly once), no
wrapping. -/
theorem transport_error_propagates (self : ChatAzureFoundry)
    (complete : ChatCompletionsClient → TransportRequest → Except PyExc TransportResponse)
    (e : PyExc) (msgs : List BaseMessage) (of : Option String)
    (kwargs : List (String × String))
    (hkw : kwargs.find? (fun kv => fixedKwNames.contains kv.1) = none)
    (he : complete self.get_client.1
      { messages := formatMessages msgs, model := self.model,
        temperature := self.temperature, max_tokens := self.max_tokens,
        kwargs := kwargs } = .error e) :
    (self.ainvoke complete msgs of kwargs).result = .error e ∧
    (self.ainvoke complete msgs of kwargs).calls.length = 1 := by
  unfold ChatAzureFoundry.ainvoke
  rw [hkw]
  simp [he, extractResult]

/-- Witness for C7: a stub transport raising a given error makes the call fail
with exactly that error. -/
theorem transport_error_propagates_witness :
    (sampleAdapter.ainvoke (fun _ _ => .error (.other "boom"))
        [{ role := "user", content := "u" }] none []).result =
      .error (.other "boom") := by
  exact (transport_error_propagates sampleAdapter (fun _ _ => .error (.other "boom"))
    (.other "boom") [{ role := "user", content := "u" }] none [] rfl rfl).1

/-- Claim C8: two calls differing only in output_format produce identical
outcomes in every respect: the same transport invocations with the same
arguments (output_format is not forwarded) and the same returned result and
state. -/
theorem output_format_has_no_effect (self : ChatAzureFoundry)
    (complete : ChatCompletionsClient → TransportRequest → Except PyExc TransportResponse)
    (msgs : List BaseMessage) (kwargs : List (String × String))
    (of1 of2 : Option String) :
    self.ainvoke complete msgs of1 kwargs = self.ainvoke complete msgs of2 kwargs := rfl

/-- The validation invariant: the resolved endpoint and credential of the
adapter are truthy (present and non-empty), and so are those of any memoized
client. -/
def validatedConfig (s : ChatAzureFoundry) : Prop :=
  falsyStr s.endpoint = false ∧ falsyStr s.api_key = false ∧
  ∀ c, s._client = some c →
    falsyStr c.endpoint = false ∧ falsyStr c.credential.key = false

/-- The adapter states on which ainvoke can ever be invoked: produced by a
successful construction, or an earlier get_client or ainvoke on such a state. -/
inductive ReachableAdapter : ChatAzureFoundry → Prop
  | constructed (model : String) (endpoint api_key : Option String) (t : Rat)
      (mt : Int) (env : Env) (s : ChatAzureFoundry) :
      ChatAzureFoundry.make model endpoint api_key t mt env = .ok s →
      ReachableAdapter s
  | clientStep (s : ChatAzureFoundry) :
      ReachableAdapter s → ReachableAdapter s.get_client.2
  | invokeStep (s : ChatAzureFoundry)
      (complete : ChatCompletionsClient → TransportRequest → Except PyExc TransportResponse)
      (msgs : List BaseMessage) (of : Option String)
      (kwargs : List (String × String)) :
      ReachableAdapter s → ReachableAdapter (s.ainvoke complete msgs of kwargs).state

/-- get_client preserves the validation invariant (shared helper lemma). -/
theorem validatedConfig_get_client (s : ChatAzureFoundry)
    (h : validatedConfig s) : validatedConfig s.get_client.2 := by
  obtain ⟨model, endpoint, api_key, t, mt, cl⟩ := s
  obtain ⟨h1, h2, h3⟩ := h
  cases cl with
  | some c => exact ⟨h1, h2, h3⟩
  | none =>
    refine ⟨h1, h2, fun c2 hc2 => ?_⟩
    injection hc2 with hc2
    rw [hc2.symm]
    exact ⟨h1, h2⟩

/-- On a validated state the client get_client hands out has truthy endpoint
and credential key (shared helper lemma). -/
theorem get_client_fst_validated (s : ChatAzureFoundry) (h : validatedConfig s) :
    falsyStr s.get_client.1.endpoint = false ∧
    falsyStr s.get_client.1.credential.key = false := by
  obtain ⟨model, endpoint, api_key, t, mt, cl⟩ := s
  obtain ⟨h1, h2, h3⟩ := h
  cases cl with
  | some c => exact h3 c rfl
  | none => exact ⟨h1, h2⟩

/-- The state after ainvoke is the state after its get_client step (shared
helper lemma). -/
theorem ainvoke_state_eq (s : ChatAzureFoundry)
    (complete : ChatCompletionsClient → TransportRequest → Except PyExc TransportResponse)
    (msgs : List BaseMessage) (of : Option String)
    (kwargs : List (String × String)) :
    (s.ainvoke complete msgs of kwargs).state = s.get_client.2 := by
  unfold ChatAzureFoundry.ainvoke
  cases kwargs.find? (fun kv => fixedKwNames.contains kv.1) <;> rfl

/-- Every transport call ainvoke makes goes through the client get_client
returned (shared helper lemma). -/
theorem ainvoke_calls_client (s : ChatAzureFoundry)
    (complete : ChatCompletionsClient → TransportRequest → Except PyExc TransportResponse)
    (msgs : List BaseMessage) (of : Option String)
    (kwargs : List (String × String)) :
    ∀ call ∈ (s.ainvoke complete msgs of kwargs).calls, call.1 = s.get_client.1 := by
  intro call hcall
  unfold ChatAzureFoundry.ainvoke at hcall
  cases hf : kwargs.find? (fun kv => fixedKwNames.contains kv.1) with
  | none =>
    rw [hf] at hcall
    simp at hcall
    rw [hcall]
  | some kv =>
    rw [hf] at hcall
    simp at hcall

/-- Every reachable adapter state satisfies the validation invariant (shared
helper lemma). -/
theorem reachable_validatedConfig (s : ChatAzureFoundry)
    (h : ReachableAdapter s) : validatedConfig s := by
  induction h with
  | constructed model endpoint api_key t mt env s hmk =>
    unfold ChatAzureFoundry.make at hmk
    by_cases hc : (falsyStr (pyOr endpoint env.azureInferenceEndpoint) ||
        falsyStr (pyOr api_key env.azureInferenceCredential)) = true
    · rw [if_pos hc] at hmk
      exact absurd hmk (by simp)
    · rw [if_neg hc] at hmk
      have hparts := Bool.or_eq_false_iff.mp (Bool.not_eq_true _ |>.mp hc)
      cases hmk
      exact ⟨hparts.1, hparts.2, by intro c hc2; exact absurd hc2 (by simp)⟩
  | clientStep s hs ih => exact validatedConfig_get_client s ih
  | invokeStep s complete msgs of kwargs hs ih =>
    rw [ainvoke_state_eq]
    exact validatedConfig_get_client s ih

/-- Claim C9: on every reachable adapter state the resolved endpoint and
credential are present and non-empty, and every transport invocation an
ainvoke call makes goes through a client whose endpoint and credential key are
present and non-empty — the adapter never issues a network call without the
construction-time validation having held. -/
theorem no_transport_call_without_validation (s : ChatAzureFoundry)
    (h : ReachableAdapter s)
    (complete : ChatCompletionsClient → TransportRequest → Except PyExc TransportResponse)
    (msgs : List BaseMessage) (of : Option String)
    (kwargs : List (String × String)) :
    falsyStr s.endpoint = false ∧ falsyStr s.api_key = false ∧
    ∀ call ∈ (s.ainvoke complete msgs of kwargs).calls,
      falsyStr call.1.endpoint = false ∧ falsyStr call.1.credential.key = false := by
  have hv := reachable_validatedConfig s h
  refine ⟨hv.1, hv.2.1, fun call hcall => ?_⟩
  rw [ainvoke_calls_client s complete msgs of kwargs call hcall]
  exact get_client_fst_validated s hv

/-- Witness for C9: the sample adapter is reachable by construction, its
config is validated, and the one call a concrete ainvoke makes goes through a
validated client. -/
theorem no_transport_call_without_validation_witness :
    falsyStr sampleAdapter.endpoint = false ∧
    falsyStr sampleAdapter.api_key = false ∧
    ∀ call ∈ (sampleAdapter.ainvoke (fun _ _ => .ok stubResponse)
        [{ role := "user", content := "u" }] none []).calls,
      falsyStr call.1.endpoint = false ∧ falsyStr call.1.credential.key = false :=
  no_transport_call_without_validation sampleAdapter
    (ReachableAdapter.constructed "m" (some "e") (some "k") 0 1000 emptyEnv
      sampleAdapter rfl)
    (fun _ _ => .ok stubResponse) [{ role := "user", content := "u" }] none []

/-- Claim C10: an endpoint or api_key passed explicitly as the empty string
behaves exactly like an absent argument — construction gives the very same
outcome as with the argument omitted, it fails with the configuration
ValueError when the corresponding environment value is also missing or empty,
and a successful construction never hands an empty or missing endpoint or key
to the transport client it later builds. -/
theorem empty_string_argument_like_absent (model : String)
    (ep key : Option String) (t : Rat) (mt : Int) (env : Env) :
    ChatAzureFoundry.make model (some "") key t mt env =
      ChatAzureFoundry.make model none key t mt env ∧
    ChatAzureFoundry.make model ep (some "") t mt env =
      ChatAzureFoundry.make model ep none t mt env ∧
    (falsyStr env.azureInferenceEndpoint = true →
      ChatAzureFoundry.make model (some "") key t mt env =
        .error (.valueError "Azure Inference Endpoint and API Key must be provided.")) ∧
    (falsyStr env.azureInferenceCredential = true →
      ChatAzureFoundry.make model ep (some "") t mt env =
        .error (.valueError "Azure Inference Endpoint and API Key must be provided.")) ∧
    (∀ s, ChatAzureFoundry.make model ep key t mt env = .ok s →
      s.get_client.1.endpoint ≠ some "" ∧ s.get_client.1.endpoint ≠ none ∧
      s.get_client.1.credential.key ≠ some "" ∧ s.get_client.1.credential.key ≠ none) := by
  refine ⟨rfl, ?_, ?_, ?_, ?_⟩
  · unfold ChatAzureFoundry.make pyOr falsyStr
    rfl
  · intro hfe
    have hp : pyOr (some "") env.azureInferenceEndpoint = env.azureInferenceEndpoint := rfl
    simp [ChatAzureFoundry.make, hp, hfe]
  · intro hfk
    have hp : pyOr (some "") env.azureInferenceCredential = env.azureInferenceCredential := rfl
    simp [ChatAzureFoundry.make, hp, hfk]
  · intro s hs
    unfold ChatAzureFoundry.make at hs
    by_cases hc : (falsyStr (pyOr ep env.azureInferenceEndpoint) ||
        falsyStr (pyOr key env.azureInferenceCredential)) = true
    · rw [if_pos hc] at hs
      exact absurd hs (by simp)
    · rw [if_neg hc] at hs
      have hparts := Bool.or_eq_false_iff.mp (Bool.not_eq_true _ |>.mp hc)
      have h1 := hparts.1
      have h2 := hparts.2
      cases hs
      refine ⟨fun hbad => ?_, fun hbad => ?_, fun hbad => ?_, fun hbad => ?_⟩
      · have hb : pyOr ep env.azureInferenceEndpoint = some "" := hbad
        rw [hb] at h1
        simp [falsyStr] at h1
      · have hb : pyOr ep env.azureInferenceEndpoint = none := hbad
        rw [hb] at h1
        simp [falsyStr] at h1
      · have hb : pyOr key env.azureInferenceCredential = some "" := hbad
        rw [hb] at h2
        simp [falsyStr] at h2
      · have hb : pyOr key env.azureInferenceCredential = none := hbad
        rw [hb] at h2
        simp [falsyStr] at h2

/-- Witness for C10: with only the environment endpoint set, an explicit empty
endpoint argument falls back to it; with an empty environment the same call
fails; and the client a successful construction builds holds the non-empty
environment endpoint. -/
theorem empty_string_argument_like_absent_witness :
    ChatAzureFoundry.make "m" (some "") (some "k") 0 1000
        { azureInferenceEndpoint := some "env-e", azureInferenceCredential := none } =
      ChatAzureFoundry.make "m" none (some "k") 0 1000
        { azureInferenceEndpoint := some "env-e", azureInferenceCredential := none } ∧
    ChatAzureFoundry.make "m" (some "") (some "k") 0 1000 emptyEnv =
      .error (.valueError "Azure Inference Endpoint and API Key must be provided.") ∧
    (∀ s, ChatAzureFoundry.make "m" (some "e") (some "k") 0 1000 emptyEnv = .ok s →
      s.get_client.1.endpoint ≠ some "" ∧ s.get_client.1.endpoint ≠ none ∧
      s.get_client.1.credential.key ≠ some "" ∧ s.get_client.1.credential.key ≠ none) :=
  ⟨(empty_string_argument_like_absent "m" (some "") (some "k") 0 1000
      { azureInferenceEndpoint := some "env-e", azureInferenceCredential := none }).1,
   (empty_string_argument_like_absent "m" (some "") (some "k") 0 1000 emptyEnv).2.2.1 rfl,
   (empty_string_argument_like_absent "m" (some "e") (some "k") 0 1000 emptyEnv).2.2.2.2⟩
